import Mathlib

/-!
Verification of the conversational-session system: a shallow embedding of
the repository's client component (`ChatWindow` in the Next.js client) and
of the backend session/turn engine described by the design document.  The
backend implementation itself (FastAPI app of `examples/mobile_backend`) is
not part of the checked sources, so its operations are modelled from the
spec; the client component is embedded directly from its source.
-/

/-- Embedding of JavaScript `String.prototype.trim` on the character list of
a string: leading and trailing whitespace characters are removed. -/
def jsTrimList (cs : List Char) : List Char :=
  ((cs.dropWhile Char.isWhitespace).reverse.dropWhile Char.isWhitespace).reverse

/-- Embedding of JavaScript `input.trim()` used by `ChatWindow.send`. -/
def jsTrim (s : String) : String := String.mk (jsTrimList s.data)

/-- Suffix test on strings, used to state facts about request paths. -/
def strEndsWith (s suffix : String) : Bool :=
  s.data.reverse.take suffix.data.length == suffix.data.reverse

/-- One entry of the client's `messages` state: the source stores objects
with a `from` field (here `sender`, since `from` is a Lean keyword) and a
`text` field. -/
structure Msg where
  sender : String
  text : String
deriving DecidableEq

/-- The client component's mutable state: the `messages` list and the text
`input` field, as held by the two `useState` hooks of `ChatWindow`. -/
structure ClientState where
  messages : List Msg
  input : String
deriving DecidableEq

namespace ChatWindow

/-- Embedding of the synchronous part of `ChatWindow.send` up to the point
where the HTTP request is issued.  Source behaviour: if `input.trim()` is
falsy (empty) it returns immediately with no request; otherwise it appends
a `from: "user"` entry with the trimmed text, clears the input field, and
issues `fetch(apiBase + "/api/chat")` with body field `message` set to the
trimmed text.  Returns `none` when no request is issued, otherwise `some`
of the pre-request state, the request URL, and the `message` body field. -/
def send (apiBase : String) (s : ClientState) :
    Option (ClientState × String × String) :=
  if (jsTrim s.input).data.isEmpty then none
  else
    some (ClientState.mk (s.messages ++ [Msg.mk "user" (jsTrim s.input)]) "",
          apiBase ++ "/api/chat",
          jsTrim s.input)

/-- Embedding of the response handler of `ChatWindow.send`: on a successful
fetch it appends a `from: "bot"` entry whose text is `data.reply`. -/
def onSuccess (pre : ClientState) (reply : String) : ClientState :=
  ClientState.mk (pre.messages ++ [Msg.mk "bot" reply]) pre.input

/-- Embedding of the `catch` branch of `ChatWindow.send`: on a failed fetch
it appends a `from: "bot"` entry with a fixed error text. -/
def onFailure (pre : ClientState) : ClientState :=
  ClientState.mk (pre.messages ++ [Msg.mk "bot" "Error contacting API."]) pre.input

end ChatWindow

/-- Role of a turn, per the spec's data model: `user` or `agent`. -/
inductive Role where
  | user
  | agent
deriving DecidableEq

/-- Modelled from the spec: a Turn is one exchange unit with a role, text
content and a sequence number monotonically increasing within a session
(timestamps are omitted as no claim mentions them). -/
structure Turn where
  role : Role
  text : String
  seq : Nat
deriving DecidableEq

/-- Modelled from the spec: the error taxonomy of the session backend. -/
inductive ChatError where
  | SessionNotFound
  | InvalidInput
  | TurnLimitExceeded
  | AgentUnavailable
deriving DecidableEq

/-- Modelled from the spec: the Session Registry plus Transcript Store as a
mapping from session identifier to the transcript of the live session with
that identifier (`none` when the identifier is not live). -/
abbrev Registry := String → Option (List Turn)

/-- The registry with no live sessions. -/
def emptyRegistry : Registry := fun _ => none

/-- Point update of the registry. -/
def Registry.set (r : Registry) (id : String) (t : List Turn) : Registry :=
  fun k => if k = id then some t else r k

/-- Removal of an identifier from the registry. -/
def Registry.erase (r : Registry) (id : String) : Registry :=
  fun k => if k = id then none else r k

/-- Modelled from the spec: `create()` generates a fresh identifier not
currently live and registers an empty transcript for it.  The identifier
chosen by the generator is passed as a parameter. -/
def create (r : Registry) (id : String) : Registry := Registry.set r id []

/-- Modelled from the spec: `delete(id)` marks the session deleted, erases
its transcript and frees the identifier; deleting an identifier that is
unknown or already deleted signals `SessionNotFound`, never a silent
success. -/
def delete (r : Registry) (id : String) : Except ChatError Registry :=
  match r id with
  | none => Except.error ChatError.SessionNotFound
  | some _ => Except.ok (Registry.erase r id)

/-- Modelled from the spec: the Turn Engine's `submit(sessionId, userText)`.
Steps, in order: resolve the session (`SessionNotFound` if absent); reject
with `InvalidInput` if the text is empty after trimming; check the turn
count against the maximum-turns limit (`TurnLimitExceeded` without calling
the agent or touching the transcript) — per the spec's limit-enforcement
test, the limit counts user/agent exchanges, so a session that holds
`2 * maxTurns` turns has reached it; append a `user` turn with the next
sequence number; invoke the agent collaborator on the transcript including
the new user turn; on success append an `agent` turn and return the full
updated transcript, on failure retain the user turn, append nothing else
and report `AgentUnavailable`.  The result pairs the updated registry with
the outcome, since a failed agent call still keeps the user turn. -/
def submit (maxTurns : Nat) (respond : List Turn → Option String)
    (r : Registry) (id : String) (userText : String) :
    Registry × Except ChatError (List Turn) :=
  match r id with
  | none => (r, Except.error ChatError.SessionNotFound)
  | some t =>
    if (jsTrim userText).data.isEmpty then (r, Except.error ChatError.InvalidInput)
    else if 2 * maxTurns ≤ t.length then (r, Except.error ChatError.TurnLimitExceeded)
    else
      let t1 := t ++ [Turn.mk Role.user userText (t.length + 1)]
      match respond t1 with
      | none => (Registry.set r id t1, Except.error ChatError.AgentUnavailable)
      | some reply =>
        let t2 := t1 ++ [Turn.mk Role.agent reply (t.length + 2)]
        (Registry.set r id t2, Except.ok t2)

/-- Iterated submissions against one session: each list entry carries the
user text and the agent collaborator's outcome for that submission
(`none` models an agent failure). -/
def runSubmits (maxTurns : Nat) : Registry → String → List (String × Option String) → Registry
  | r, _, [] => r
  | r, id, (msg, resp) :: rest =>
      runSubmits maxTurns (submit maxTurns (fun _ => resp) r id msg).1 id rest

/-- Number of submissions in a run whose agent call fails. -/
def countFail : List (String × Option String) → Nat
  | [] => 0
  | (_, none) :: rest => countFail rest + 1
  | (_, some _) :: rest => countFail rest

/-- The user texts and agent replies of the successful submissions of a run. -/
def stripResponses : List (String × Option String) → List (String × String)
  | [] => []
  | (_, none) :: rest => stripResponses rest
  | (m, some rep) :: rest => (m, rep) :: stripResponses rest

/-- The transcript produced by a run of all-successful exchanges starting
from a transcript of length `n`: alternating user/agent turns with
consecutive sequence numbers. -/
def pairTurns : Nat → List (String × String) → List Turn
  | _, [] => []
  | n, (m, rep) :: rest =>
      Turn.mk Role.user m (n + 1) :: Turn.mk Role.agent rep (n + 2) :: pairTurns (n + 2) rest

/-- Sequence numbers of the turns are `n, n+1, n+2, ...` in order: the
gap-free strictly-increasing numbering invariant, relative to a start. -/
def seqsFrom : Nat → List Turn → Bool
  | _, [] => true
  | n, turn :: rest => (turn.seq == n) && seqsFrom (n + 1) rest

/-- The transcript is a sequence of user/agent pairs: roles alternate
starting with `user`, and every user turn is followed by an agent turn. -/
def rolesOk : List Turn → Bool
  | [] => true
  | _ :: [] => false
  | u :: a :: rest =>
      decide (u.role = Role.user) && decide (a.role = Role.agent) && rolesOk rest

theorem Registry.set_self (r : Registry) (id : String) (t : List Turn) :
    Registry.set r id t id = some t := by
  simp [Registry.set]

theorem seqsFrom_append (x : Turn) :
    ∀ (t : List Turn) (n : Nat),
      seqsFrom n (t ++ [x]) = (seqsFrom n t && (x.seq == n + t.length)) := by
  intro t
  induction t with
  | nil => intro n; simp [seqsFrom]
  | cons hd tl ih =>
    intro n
    have harith : n + 1 + tl.length = n + (tl.length + 1) := by omega
    simp [seqsFrom, ih (n + 1), harith, Bool.and_assoc]

theorem rolesOk_pairTurns : ∀ (l : List (String × String)) (n : Nat),
    rolesOk (pairTurns n l) = true := by
  intro l
  induction l with
  | nil => intro n; rfl
  | cons hd tl ih =>
    intro n
    cases hd with
    | mk m rep => simp [pairTurns, rolesOk, ih]

theorem submit_notfound (maxTurns : Nat) (respond : List Turn → Option String)
    (r : Registry) (id userText : String) (hr : r id = none) :
    submit maxTurns respond r id userText = (r, Except.error ChatError.SessionNotFound) := by
  unfold submit
  rw [hr]

theorem submit_empty (maxTurns : Nat) (respond : List Turn → Option String)
    (r : Registry) (id userText : String) (t : List Turn)
    (hr : r id = some t) (he : (jsTrim userText).data.isEmpty = true) :
    submit maxTurns respond r id userText = (r, Except.error ChatError.InvalidInput) := by
  unfold submit
  rw [hr]
  simp [he]

theorem submit_limit (maxTurns : Nat) (respond : List Turn → Option String)
    (r : Registry) (id userText : String) (t : List Turn)
    (hr : r id = some t) (hne : (jsTrim userText).data.isEmpty = false)
    (hl : 2 * maxTurns ≤ t.length) :
    submit maxTurns respond r id userText = (r, Except.error ChatError.TurnLimitExceeded) := by
  unfold submit
  rw [hr]
  simp [hne, hl]

theorem submit_agent_fail (maxTurns : Nat) (respond : List Turn → Option String)
    (r : Registry) (id userText : String) (t : List Turn)
    (hr : r id = some t) (hne : (jsTrim userText).data.isEmpty = false)
    (hl : ¬ 2 * maxTurns ≤ t.length)
    (hresp : respond (t ++ [Turn.mk Role.user userText (t.length + 1)]) = none) :
    submit maxTurns respond r id userText =
      (Registry.set r id (t ++ [Turn.mk Role.user userText (t.length + 1)]),
       Except.error ChatError.AgentUnavailable) := by
  unfold submit
  rw [hr]
  simp [hne, hl, hresp]

theorem submit_agent_ok (maxTurns : Nat) (respond : List Turn → Option String)
    (r : Registry) (id userText reply : String) (t : List Turn)
    (hr : r id = some t) (hne : (jsTrim userText).data.isEmpty = false)
    (hl : ¬ 2 * maxTurns ≤ t.length)
    (hresp : respond (t ++ [Turn.mk Role.user userText (t.length + 1)]) = some reply) :
    submit maxTurns respond r id userText =
      (Registry.set r id ((t ++ [Turn.mk Role.user userText (t.length + 1)]) ++
          [Turn.mk Role.agent reply (t.length + 2)]),
       Except.ok ((t ++ [Turn.mk Role.user userText (t.length + 1)]) ++
          [Turn.mk Role.agent reply (t.length + 2)])) := by
  unfold submit
  rw [hr]
  simp [hne, hl, hresp]

theorem runSubmits_spec (maxTurns : Nat) (id : String) :
    ∀ (subs : List (String × Option String)) (r : Registry) (t : List Turn),
      r id = some t →
      seqsFrom 1 t = true →
      (∀ p ∈ subs, (jsTrim p.1).data.isEmpty = false) →
      t.length + 2 * subs.length ≤ 2 * maxTurns →
      ∃ t', runSubmits maxTurns r id subs id = some t' ∧
        t'.length + countFail subs = t.length + 2 * subs.length ∧
        seqsFrom 1 t' = true ∧
        (countFail subs = 0 → t' = t ++ pairTurns t.length (stripResponses subs)) := by
  intro subs
  induction subs with
  | nil =>
    intro r t hr hseq _ _
    exact ⟨t, hr, by simp [countFail], hseq, by simp [stripResponses, pairTurns]⟩
  | cons hd rest ih =>
    intro r t hr hseq hne hbudget
    obtain ⟨msg, resp⟩ := hd
    have hmsg : (jsTrim msg).data.isEmpty = false := hne (msg, resp) (List.mem_cons_self _ _)
    have hrest : ∀ p ∈ rest, (jsTrim p.1).data.isEmpty = false :=
      fun p hp => hne p (List.mem_cons_of_mem _ hp)
    have hlt : ¬ 2 * maxTurns ≤ t.length := by
      simp only [List.length_cons] at hbudget
      omega
    cases resp with
    | none =>
      have hstep := submit_agent_fail maxTurns (fun _ => none) r id msg t hr hmsg hlt rfl
      have hr1 : Registry.set r id (t ++ [Turn.mk Role.user msg (t.length + 1)]) id =
          some (t ++ [Turn.mk Role.user msg (t.length + 1)]) := Registry.set_self r id _
      have hseq1 : seqsFrom 1 (t ++ [Turn.mk Role.user msg (t.length + 1)]) = true := by
        rw [seqsFrom_append, hseq]
        simp [Bool.and_eq_true, Nat.add_comm]
      have hbudget1 : (t ++ [Turn.mk Role.user msg (t.length + 1)]).length +
          2 * rest.length ≤ 2 * maxTurns := by
        simp only [List.length_append, List.length_cons, List.length_nil] at hbudget ⊢
        omega
      obtain ⟨t', h1, h2, h3, h4⟩ := ih _ _ hr1 hseq1 hrest hbudget1
      refine ⟨t', ?_, ?_, h3, ?_⟩
      · simp only [runSubmits, hstep]
        exact h1
      · simp only [List.length_append, List.length_cons, List.length_nil, countFail] at h2 ⊢
        omega
      · intro hf
        simp [countFail] at hf
    | some reply =>
      have hstep := submit_agent_ok maxTurns (fun _ => some reply) r id msg reply t hr hmsg hlt rfl
      have hr1 : Registry.set r id ((t ++ [Turn.mk Role.user msg (t.length + 1)]) ++
            [Turn.mk Role.agent reply (t.length + 2)]) id =
          some ((t ++ [Turn.mk Role.user msg (t.length + 1)]) ++
            [Turn.mk Role.agent reply (t.length + 2)]) := Registry.set_self r id _
      have hseq1 : seqsFrom 1 ((t ++ [Turn.mk Role.user msg (t.length + 1)]) ++
          [Turn.mk Role.agent reply (t.length + 2)]) = true := by
        rw [seqsFrom_append, seqsFrom_append, hseq]
        simp only [List.length_append, List.length_cons, List.length_nil,
          Bool.true_and, Bool.and_eq_true, beq_iff_eq]
        omega
      have hbudget1 : ((t ++ [Turn.mk Role.user msg (t.length + 1)]) ++
          [Turn.mk Role.agent reply (t.length + 2)]).length + 2 * rest.length ≤ 2 * maxTurns := by
        simp only [List.length_append, List.length_cons, List.length_nil] at hbudget ⊢
        omega
      obtain ⟨t', h1, h2, h3, h4⟩ := ih _ _ hr1 hseq1 hrest hbudget1
      refine ⟨t', ?_, ?_, h3, ?_⟩
      · simp only [runSubmits, hstep]
        exact h1
      · simp only [List.length_append, List.length_cons, List.length_nil, countFail] at h2 ⊢
        omega
      · intro hf
        simp only [countFail] at hf
        rw [h4 hf]
        simp [stripResponses, pairTurns, List.append_assoc, List.length_append]

/-- Claim C1: per session, turn sequence numbers are gap-free and strictly
increasing; every user turn of a successful submit is immediately followed
by exactly one agent turn with the next sequence number, so a run of N
submissions yields a transcript of 2N turns (2N minus k when k agent calls
failed), alternating user/agent when none failed. -/
theorem claim_C1 (maxTurns : Nat) (id : String) (subs : List (String × Option String))
    (r : Registry)
    (h0 : r id = some [])
    (hne : ∀ p ∈ subs, (jsTrim p.1).data.isEmpty = false)
    (hbudget : subs.length ≤ maxTurns) :
    ∃ t', runSubmits maxTurns r id subs id = some t' ∧
      t'.length + countFail subs = 2 * subs.length ∧
      seqsFrom 1 t' = true ∧
      (countFail subs = 0 → t'.length = 2 * subs.length ∧ rolesOk t' = true) := by
  obtain ⟨t', h1, h2, h3, h4⟩ :=
    runSubmits_spec maxTurns id subs r [] h0 rfl hne (by simp only [List.length_nil]; omega)
  simp only [List.length_nil, Nat.zero_add, List.nil_append] at h2 h4
  refine ⟨t', h1, h2, h3, fun hf => ⟨by omega, ?_⟩⟩
  rw [h4 hf]
  exact rolesOk_pairTurns (stripResponses subs) 0

/-- Witness for C1 at a concrete one-submission run. -/
theorem claim_C1_witness :
    ∃ t', runSubmits 1 (create emptyRegistry "s1") "s1" [("hi", some "yo")] "s1" = some t' ∧
      t'.length + countFail [("hi", some "yo")] =
        2 * ([("hi", some "yo")] : List (String × Option String)).length ∧
      seqsFrom 1 t' = true ∧
      (countFail [("hi", some "yo")] = 0 →
        t'.length = 2 * ([("hi", some "yo")] : List (String × Option String)).length ∧
        rolesOk t' = true) :=
  claim_C1 1 "s1" [("hi", some "yo")] (create emptyRegistry "s1") (by decide) (by decide)
    (by decide)

/-- Claim C2: an input that is empty after trimming is rejected: the client
returns before issuing any request and leaves its state unchanged, and the
engine reports InvalidInput without contacting the agent (the result does
not depend on the collaborator) and without touching the transcript. -/
theorem claim_C2 :
    (∀ (apiBase : String) (s : ClientState),
        (jsTrim s.input).data.isEmpty = true → ChatWindow.send apiBase s = none) ∧
    (∀ (maxTurns : Nat) (respond : List Turn → Option String) (r : Registry)
        (id userText : String) (t : List Turn),
        r id = some t → (jsTrim userText).data.isEmpty = true →
        submit maxTurns respond r id userText = (r, Except.error ChatError.InvalidInput)) := by
  constructor
  · intro apiBase s h
    unfold ChatWindow.send
    simp [h]
  · intro maxTurns respond r id userText t hr he
    exact submit_empty maxTurns respond r id userText t hr he

/-- Witness for C2 at concrete whitespace-only inputs. -/
theorem claim_C2_witness :
    ChatWindow.send "http://localhost:8000" (ClientState.mk [] "   ") = none ∧
    submit 6 (fun _ => some "yo") (create emptyRegistry "s1") "s1" "" =
      (create emptyRegistry "s1", Except.error ChatError.InvalidInput) :=
  ⟨claim_C2.1 "http://localhost:8000" (ClientState.mk [] "   ") (by decide),
   claim_C2.2 6 (fun _ => some "yo") (create emptyRegistry "s1") "s1" "" [] (by decide)
     (by decide)⟩

/-- Claim C3: when the agent collaborator fails, the already-appended user
turn is retained, no agent turn is appended, and the caller is told
AgentUnavailable; reading the transcript back shows exactly the prior
turns plus the lone user turn. -/
theorem claim_C3 (maxTurns : Nat) (respond : List Turn → Option String) (r : Registry)
    (id userText : String) (t : List Turn)
    (hr : r id = some t) (hne : (jsTrim userText).data.isEmpty = false)
    (hlim : ¬ 2 * maxTurns ≤ t.length)
    (hresp : respond (t ++ [Turn.mk Role.user userText (t.length + 1)]) = none) :
    (submit maxTurns respond r id userText).2 = Except.error ChatError.AgentUnavailable ∧
    (submit maxTurns respond r id userText).1 id =
      some (t ++ [Turn.mk Role.user userText (t.length + 1)]) := by
  rw [submit_agent_fail maxTurns respond r id userText t hr hne hlim hresp]
  exact ⟨rfl, Registry.set_self r id _⟩

/-- Witness for C3: a failing agent on a fresh session leaves the lone
user turn. -/
theorem claim_C3_witness :
    (submit 6 (fun _ => none) (create emptyRegistry "s2") "s2" "ping").2 =
      Except.error ChatError.AgentUnavailable ∧
    (submit 6 (fun _ => none) (create emptyRegistry "s2") "s2" "ping").1 "s2" =
      some [Turn.mk Role.user "ping" 1] :=
  claim_C3 6 (fun _ => none) (create emptyRegistry "s2") "s2" "ping" [] (by decide) (by decide)
    (by decide) rfl

/-- Claim C4: once a session has reached the maximum-turns limit, a further
submit fails with TurnLimitExceeded for every possible agent collaborator
(so the agent is never contacted), the registry is unchanged, and the
transcript read back has exactly its previous length. -/
theorem claim_C4 (maxTurns : Nat) (respond : List Turn → Option String) (r : Registry)
    (id userText : String) (t : List Turn)
    (hr : r id = some t) (hne : (jsTrim userText).data.isEmpty = false)
    (hlim : 2 * maxTurns ≤ t.length) :
    submit maxTurns respond r id userText = (r, Except.error ChatError.TurnLimitExceeded) ∧
    ∃ u, (submit maxTurns respond r id userText).1 id = some u ∧ u.length = t.length := by
  have h := submit_limit maxTurns respond r id userText t hr hne hlim
  exact ⟨h, t, by rw [h]; exact hr, rfl⟩

/-- Witness for C4: with a limit of one exchange, a session holding two
turns rejects a third submission and keeps its two turns. -/
theorem claim_C4_witness :
    submit 1 (fun _ => some "yo")
        (Registry.set emptyRegistry "s1" [Turn.mk Role.user "a" 1, Turn.mk Role.agent "b" 2])
        "s1" "more" =
      (Registry.set emptyRegistry "s1" [Turn.mk Role.user "a" 1, Turn.mk Role.agent "b" 2],
       Except.error ChatError.TurnLimitExceeded) ∧
    ∃ u, (submit 1 (fun _ => some "yo")
        (Registry.set emptyRegistry "s1" [Turn.mk Role.user "a" 1, Turn.mk Role.agent "b" 2])
        "s1" "more").1 "s1" = some u ∧
      u.length = ([Turn.mk Role.user "a" 1, Turn.mk Role.agent "b" 2] : List Turn).length :=
  claim_C4 1 (fun _ => some "yo")
    (Registry.set emptyRegistry "s1" [Turn.mk Role.user "a" 1, Turn.mk Role.agent "b" 2])
    "s1" "more" [Turn.mk Role.user "a" 1, Turn.mk Role.agent "b" 2]
    (by decide) (by decide) (by decide)

/-- Counterexample for C5 as stated: the repository client's state after a
successful response is not determined by the response alone — with the same
reply, two different locally kept message lists yield different rendered
lists — so the client maintains its own message list instead of reading a
transcript from the response. -/
theorem claim_C5_cex :
    ChatWindow.onSuccess (ClientState.mk [Msg.mk "user" "a"] "") "hi" ≠
      ChatWindow.onSuccess (ClientState.mk [] "") "hi" ∧
    (ChatWindow.onSuccess (ClientState.mk [Msg.mk "user" "a"] "") "hi").messages =
      [Msg.mk "user" "a", Msg.mk "bot" "hi"] := by
  exact ⟨by decide, by decide⟩

/-- Claim C5 (amended): a successful submit returns the full updated
transcript, equal to what a read-back of the store yields, so a stateless
client could reconstruct the conversation from any single response; the
repository's client however keeps its own messages list and appends only
the reply text of the response to it. -/
theorem claim_C5 (maxTurns : Nat) (respond : List Turn → Option String) (r : Registry)
    (id userText reply : String) (t : List Turn)
    (hr : r id = some t) (hne : (jsTrim userText).data.isEmpty = false)
    (hlim : ¬ 2 * maxTurns ≤ t.length)
    (hresp : respond (t ++ [Turn.mk Role.user userText (t.length + 1)]) = some reply) :
    ((submit maxTurns respond r id userText).2 =
        Except.ok ((t ++ [Turn.mk Role.user userText (t.length + 1)]) ++
          [Turn.mk Role.agent reply (t.length + 2)]) ∧
      (submit maxTurns respond r id userText).1 id =
        some ((t ++ [Turn.mk Role.user userText (t.length + 1)]) ++
          [Turn.mk Role.agent reply (t.length + 2)])) ∧
    (∀ (pre : ClientState) (rep : String),
        (ChatWindow.onSuccess pre rep).messages = pre.messages ++ [Msg.mk "bot" rep]) := by
  rw [submit_agent_ok maxTurns respond r id userText reply t hr hne hlim hresp]
  exact ⟨⟨rfl, Registry.set_self r id _⟩, fun pre rep => rfl⟩

/-- Witness for C5 (amended) at a concrete successful exchange. -/
theorem claim_C5_witness :
    ((submit 6 (fun _ => some "there") (create emptyRegistry "s1") "s1" "hello").2 =
        Except.ok [Turn.mk Role.user "hello" 1, Turn.mk Role.agent "there" 2] ∧
      (submit 6 (fun _ => some "there") (create emptyRegistry "s1") "s1" "hello").1 "s1" =
        some [Turn.mk Role.user "hello" 1, Turn.mk Role.agent "there" 2]) ∧
    (∀ (pre : ClientState) (rep : String),
        (ChatWindow.onSuccess pre rep).messages = pre.messages ++ [Msg.mk "bot" rep]) :=
  claim_C5 6 (fun _ => some "there") (create emptyRegistry "s1") "s1" "hello" "there" []
    (by decide) (by decide) (by decide) rfl

/-- Counterexample for C6 as stated: at a concrete API base and input, the
client's request URL is the base followed by /api/chat, which does not end
with /messages, so it is not of the form /chats/(id)/messages. -/
theorem claim_C6_cex :
    ChatWindow.send "http://localhost:8000" (ClientState.mk [] "hi") =
      some (ClientState.mk [Msg.mk "user" "hi"] "", "http://localhost:8000/api/chat", "hi") ∧
    strEndsWith "http://localhost:8000/api/chat" "/messages" = false := by
  exact ⟨by decide, by decide⟩

/-- Claim C6 (amended): for every input with non-empty trim, the client
sends its POST to apiBase concatenated with /api/chat — carrying no session
identifier in the path — with the request body's message field equal to the
trimmed input, and handles the response by its reply field. -/
theorem claim_C6 (apiBase : String) (s : ClientState)
    (hne : (jsTrim s.input).data.isEmpty = false) :
    ChatWindow.send apiBase s =
      some (ClientState.mk (s.messages ++ [Msg.mk "user" (jsTrim s.input)]) "",
            apiBase ++ "/api/chat", jsTrim s.input) := by
  unfold ChatWindow.send
  simp [hne]

/-- Witness for C6 (amended) at a concrete input. -/
theorem claim_C6_witness :
    ChatWindow.send "http://localhost:8000" (ClientState.mk [] " hi ") =
      some (ClientState.mk ([] ++ [Msg.mk "user" (jsTrim " hi ")]) "",
            "http://localhost:8000" ++ "/api/chat", jsTrim " hi ") :=
  claim_C6 "http://localhost:8000" (ClientState.mk [] " hi ") (by decide)

/-- Claim C7: deleting an identifier that is unknown or already deleted
signals SessionNotFound, never a silent success; in particular a second
delete of the same identifier with no intervening create signals it. -/
theorem claim_C7 :
    (∀ (r : Registry) (id : String), r id = none →
        delete r id = Except.error ChatError.SessionNotFound) ∧
    (∀ (r : Registry) (id : String) (r' : Registry),
        delete r id = Except.ok r' →
        delete r' id = Except.error ChatError.SessionNotFound) := by
  constructor
  · intro r id h
    unfold delete
    rw [h]
  · intro r id r' h
    unfold delete at h ⊢
    cases hr : r id with
    | none =>
      rw [hr] at h
      exact absurd h (by simp)
    | some t =>
      rw [hr] at h
      injection h with h2
      rw [← h2]
      have herase : Registry.erase r id id = none := by simp [Registry.erase]
      rw [herase]

/-- Witness for C7: deleting on the empty registry, and deleting twice
after a create, both signal SessionNotFound. -/
theorem claim_C7_witness :
    delete emptyRegistry "s1" = Except.error ChatError.SessionNotFound ∧
    delete (Registry.erase (create emptyRegistry "s1") "s1") "s1" =
      Except.error ChatError.SessionNotFound :=
  ⟨claim_C7.1 emptyRegistry "s1" rfl,
   claim_C7.2 (create emptyRegistry "s1") "s1"
     (Registry.erase (create emptyRegistry "s1") "s1") rfl⟩

/-- Claim C8: after a successful delete the identifier is free, and a
create that reassigns the same identifier yields an empty transcript — no
turn of the deleted session is visible through the reused identifier. -/
theorem claim_C8 (r : Registry) (id : String) (r' : Registry) (t : List Turn)
    (hlive : r id = some t)
    (h : delete r id = Except.ok r') :
    r' id = none ∧ create r' id id = some [] := by
  constructor
  · unfold delete at h
    rw [hlive] at h
    injection h with h2
    rw [← h2]
    simp [Registry.erase]
  · simp [create, Registry.set]

/-- Witness for C8: delete a session holding one turn, recreate the same
identifier, and observe the empty transcript. -/
theorem claim_C8_witness :
    Registry.erase (Registry.set emptyRegistry "s1" [Turn.mk Role.user "hello" 1]) "s1" "s1" =
      none ∧
    create (Registry.erase (Registry.set emptyRegistry "s1" [Turn.mk Role.user "hello" 1]) "s1")
      "s1" "s1" = some [] :=
  claim_C8 (Registry.set emptyRegistry "s1" [Turn.mk Role.user "hello" 1]) "s1"
    (Registry.erase (Registry.set emptyRegistry "s1" [Turn.mk Role.user "hello" 1]) "s1")
    [Turn.mk Role.user "hello" 1] (by decide) rfl

/-- Claim C9: every conversation-extending operation is append-only — the
client's three state updates and the engine's submit all leave the existing
entries unchanged in content, role and position, adding new ones only at
the end. -/
theorem claim_C9 :
    (∀ (apiBase : String) (s : ClientState) (pre : ClientState) (url body : String),
        ChatWindow.send apiBase s = some (pre, url, body) →
        ∃ tail, pre.messages = s.messages ++ tail) ∧
    (∀ (pre : ClientState) (reply : String),
        ∃ tail, (ChatWindow.onSuccess pre reply).messages = pre.messages ++ tail) ∧
    (∀ (pre : ClientState),
        ∃ tail, (ChatWindow.onFailure pre).messages = pre.messages ++ tail) ∧
    (∀ (maxTurns : Nat) (respond : List Turn → Option String) (r : Registry)
        (id userText : String) (t : List Turn),
        r id = some t →
        ∃ tail, (submit maxTurns respond r id userText).1 id = some (t ++ tail)) := by
  refine ⟨?_, fun pre reply => ⟨[Msg.mk "bot" reply], rfl⟩,
    fun pre => ⟨[Msg.mk "bot" "Error contacting API."], rfl⟩, ?_⟩
  · intro apiBase s pre url body h
    unfold ChatWindow.send at h
    split at h
    · exact absurd h (by simp)
    · simp only [Option.some.injEq, Prod.mk.injEq] at h
      exact ⟨[Msg.mk "user" (jsTrim s.input)], by rw [← h.1]⟩
  · intro maxTurns respond r id userText t hr
    by_cases he : (jsTrim userText).data.isEmpty = true
    · refine ⟨[], ?_⟩
      rw [submit_empty maxTurns respond r id userText t hr he]
      simpa using hr
    · have hne : (jsTrim userText).data.isEmpty = false := by simpa using he
      by_cases hl : 2 * maxTurns ≤ t.length
      · refine ⟨[], ?_⟩
        rw [submit_limit maxTurns respond r id userText t hr hne hl]
        simpa using hr
      · cases hresp : respond (t ++ [Turn.mk Role.user userText (t.length + 1)]) with
        | none =>
          refine ⟨[Turn.mk Role.user userText (t.length + 1)], ?_⟩
          rw [submit_agent_fail maxTurns respond r id userText t hr hne hl hresp]
          exact Registry.set_self r id _
        | some reply =>
          refine ⟨[Turn.mk Role.user userText (t.length + 1),
                   Turn.mk Role.agent reply (t.length + 2)], ?_⟩
          rw [submit_agent_ok maxTurns respond r id userText reply t hr hne hl hresp]
          simp [Registry.set_self]

/-- Witness for C9: a concrete successful submit extends the empty
transcript by a tail. -/
theorem claim_C9_witness :
    ∃ tail, (submit 6 (fun _ => some "yo") (create emptyRegistry "s1") "s1" "hi").1 "s1" =
      some (([] : List Turn) ++ tail) :=
  claim_C9.2.2.2 6 (fun _ => some "yo") (create emptyRegistry "s1") "s1" "hi" [] (by decide)

/-- Claim C10: for every input with non-empty trim, the client uses the
trimmed string both as the text of the locally appended user entry and as
the message field of the request body, and the input field is already
empty in the pre-request state. -/
theorem claim_C10 (apiBase : String) (s : ClientState)
    (hne : (jsTrim s.input).data.isEmpty = false) :
    ∃ pre body, ChatWindow.send apiBase s = some (pre, apiBase ++ "/api/chat", body) ∧
      pre.messages = s.messages ++ [Msg.mk "user" (jsTrim s.input)] ∧
      body = jsTrim s.input ∧ pre.input = "" := by
  refine ⟨ClientState.mk (s.messages ++ [Msg.mk "user" (jsTrim s.input)]) "",
    jsTrim s.input, ?_, rfl, rfl, rfl⟩
  unfold ChatWindow.send
  simp [hne]

/-- Witness for C10 at a concrete padded input. -/
theorem claim_C10_witness :
    ∃ pre body, ChatWindow.send "http://localhost:8000" (ClientState.mk [] "  hello  ") =
        some (pre, "http://localhost:8000" ++ "/api/chat", body) ∧
      pre.messages = [] ++ [Msg.mk "user" (jsTrim "  hello  ")] ∧
      body = jsTrim "  hello  " ∧ pre.input = "" :=
  claim_C10 "http://localhost:8000" (ClientState.mk [] "  hello  ") (by decide)
